import Mathlib

/-!
Shallow embedding of the container controller in
`src/src/controllers/docker.js` (Pterodactyl daemon, class `Docker`).

Asynchronous callback-passing code is embedded as explicit step
functions: each runtime call's outcome (the value Docker would pass to
the node-style callback) is a parameter, and each step returns the new
controller state, the error/result delivered to the caller, and the
list of side effects performed on the owning server.
-/

namespace Daemon

/-- Logical server status (values of `src/helpers/status.js` used here). -/
inductive ServerStatus
  | OFF
  | STARTING
  | ON
  | STOPPING
deriving DecidableEq, Repr

/-- A node-style `Error` object: only its `message` field is inspected. -/
structure JsError where
  message : String
deriving DecidableEq, Repr

/-- A reference to an open attach stream; `writable` mirrors what
`isStream.isWritable` would report for it. -/
structure AttachStream where
  writable : Bool
deriving DecidableEq, Repr

/-- A reference to an open stats (telemetry) stream. -/
structure TelemStream where
  sid : Nat
deriving DecidableEq, Repr

/-- A decoded usage-metrics object (the result of `JSON.parse` on a
stats chunk). -/
structure Metrics where
  raw : String
deriving DecidableEq, Repr

/-- The mutable fields of the `Docker` controller:
`this.stream`, `this.procStream`, `this.procData`
(`undefined` is `none`). -/
structure DockerState where
  stream : Option AttachStream
  procStream : Option TelemStream
  procData : Option Metrics
deriving DecidableEq, Repr

/-- Side effects performed on the owning server / the runtime while a
step or a stream handler runs. -/
inductive Effect
  | output (data : String)
  | notifyStreamClosed
  | callStats
deriving DecidableEq, Repr

/-- The error constructed at docker.js:157 and docker.js:204. -/
def sessionBusyError : JsError :=
  ⟨"An active stream is already in use for this container."⟩

/-- The error constructed at docker.js:190. -/
def noWritableStreamError : JsError :=
  ⟨"No writable stream was detected."⟩

/-- `isStream(x)` on the controller's stream slot: `undefined` is not a
stream; everything the controller ever stores there is. -/
def isStreamOpt : Option AttachStream → Bool
  | none => false
  | some _ => true

/-- `isStream.isWritable(x)` on the stream slot. -/
def isWritableOpt : Option AttachStream → Bool
  | none => false
  | some s => s.writable

/-- `write(command, next)` (docker.js:185-191): if the stream slot is
writable, write `command + '\n'` and succeed; otherwise fail with the
no-writable-stream error. Returns (error passed to `next`, bytes
written to the container's stdin, if any). -/
def writeStep (st : DockerState) (command : String) :
    Option JsError × Option String :=
  if isWritableOpt st.stream then
    (none, some (command ++ "\n"))
  else
    (some noWritableStreamError, none)

/-- The literal substring tested at docker.js:89. -/
def alreadyStartedNeedle : String :=
  "HTTP code is 304 which indicates error: container already started"

/-- Substring search over character lists (the semantics of JS
`String.prototype.indexOf` returning a hit). -/
def containsSub (needle : List Char) : List Char → Bool
  | [] => needle.isEmpty
  | c :: rest => needle.isPrefixOf (c :: rest) || containsSub needle rest

/-- `hay.indexOf(needle) > -1` on JS strings. -/
def msgContains (hay needle : String) : Bool :=
  containsSub needle.data hay.data

/-- `start(next)` (docker.js:85-99): given the current server status and
the outcome of `container.start`, return (error passed to `next`,
resulting server status). An "already started" runtime error is
converted to success with status ON; a fresh successful start sets
STARTING; any other error is surfaced verbatim with status unchanged. -/
def startStep (status : ServerStatus) (res : Option JsError) :
    Option JsError × ServerStatus :=
  match res with
  | some e =>
    if msgContains e.message alreadyStartedNeedle then
      (none, ServerStatus.ON)
    else
      (some e, status)
  | none => (none, ServerStatus.STARTING)

/-- The attach-busy gate at docker.js:203:
`typeof this.stream !== 'undefined' || isStream(this.stream)`. -/
def attachBusy (st : DockerState) : Bool :=
  st.stream.isSome || isStreamOpt st.stream

/-- The exec-busy gate at docker.js:156: `isStream(this.stream)`. -/
def execBusy (st : DockerState) : Bool :=
  isStreamOpt st.stream

/-- The attach stream's `data` handler (docker.js:211-213): forward the
chunk to `server.output`. -/
def attachDataHandler (data : String) : List Effect :=
  [Effect.output data]

/-- The attach stream's `end` handler (docker.js:214-217):
`self.stream = undefined; self.server.streamClosed();`. -/
def attachEndHandler (st : DockerState) : DockerState × List Effect :=
  ({ st with stream := none }, [Effect.notifyStreamClosed])

/-- The stats stream's `data` handler (docker.js:235-245): try to parse
the chunk; on success replace `procData`, on failure swallow the
exception and leave all state unchanged. `parse` stands for
`JSON.parse` returning `none` where it would throw. -/
def statsDataHandler (parse : String → Option Metrics) (data : String)
    (st : DockerState) : DockerState :=
  match parse data with
  | some m => { st with procData := some m }
  | none => st

/-- The stats stream's `end` handler (docker.js:246-249):
`self.procStream = undefined; self.procData = undefined;`. -/
def statsEndHandler (st : DockerState) : DockerState :=
  { st with procStream := none, procData := none }

/-- `attach(next)` (docker.js:198-222): if the busy gate fires, fail
with the session-busy error and do nothing else. Otherwise call
`container.attach`; on runtime error surface it; on success store the
stream, register the handlers, and call `stats(next)` (docker.js:220),
which on success stores the stats stream and on failure surfaces the
stats error through attach's own callback. Returns (state, error
passed to `next`, effects). -/
def attachStep (st : DockerState) (attachRes : Except JsError AttachStream)
    (statsRes : Except JsError TelemStream) :
    DockerState × Option JsError × List Effect :=
  if attachBusy st then
    (st, some sessionBusyError, [])
  else
    match attachRes with
    | .error e => (st, some e, [])
    | .ok s =>
      match statsRes with
      | .error e => ({ st with stream := some s }, some e, [Effect.callStats])
      | .ok t =>
        ({ st with stream := some s, procStream := some t }, none,
          [Effect.callStats])

/-- `exec(command, next)` (docker.js:151-177): if an attach stream is
present, fail with the session-busy error without touching the runtime.
Otherwise proceed with `container.exec`; exec never stores anything in
the controller state. Returns (state, error passed to `next`, whether
the runtime exec was attempted). -/
def execStep (st : DockerState) (createRes : Except JsError Unit) :
    DockerState × Option JsError × Bool :=
  if execBusy st then
    (st, some sessionBusyError, false)
  else
    match createRes with
    | .error e => (st, some e, true)
    | .ok _ => (st, none, true)

/-- The `data.State.Running` field returned by `container.inspect`
(`none` models the field being absent/`undefined`). -/
structure InspectData where
  running : Option Bool
deriving DecidableEq, Repr

/-- The running test at docker.js:63:
`typeof data.State.Running !== 'undefined' && data.State.Running !== false`. -/
def runningCheck (d : InspectData) : Bool :=
  d.running.isSome && !(d.running == some false)

/-- `reattach(next)` (docker.js:57-72): propagate an inspect error;
if the running test passes, set status ON and call `attach`, reporting
the attach error; otherwise call back with no error and touch nothing.
`attachErr` is the outcome of the inner `attach` call. Returns (error
passed to `next`, resulting server status, whether attach was
initiated). -/
def reattachStep (status : ServerStatus) (res : Except JsError InspectData)
    (attachErr : Option JsError) : Option JsError × ServerStatus × Bool :=
  match res with
  | .error e => (some e, status, false)
  | .ok d =>
    if runningCheck d then
      (attachErr, ServerStatus.ON, true)
    else
      (none, status, false)

/-- One element of a `PortBindings` value: `{ HostIp, HostPort }`. -/
structure HostBinding where
  hostIp : String
  hostPort : String
deriving DecidableEq, Repr

/-- JS object assignment `obj[k] = v`: replace in place if the key
exists, append otherwise. -/
def upsert (k : String) (v : α) :
    List (String × α) → List (String × α)
  | [] => [(k, v)]
  | (k', v') :: rest =>
    if k' = k then (k, v) :: rest else (k', v') :: upsert k v rest

/-- JS object property read `obj[k]`. -/
def lookupKey (k : String) : List (String × α) → Option α
  | [] => none
  | (k', v) :: rest => if k' = k then some v else lookupKey k rest

/-- JS object assignment for the `exposed` object, whose values are all
`\x7b\x7d`: only the key set matters. -/
def insertKey (k : String) : List String → List String
  | [] => [k]
  | k' :: rest => if k' = k then k' :: rest else k' :: insertKey k rest

/-- The `bindings` and `exposed` objects built by rebuild Phase 2
(docker.js:257-258, 277-300). -/
structure PortMaps where
  bindings : List (String × List HostBinding)
  exposed : List String
deriving DecidableEq, Repr

def emptyPortMaps : PortMaps := ⟨[], []⟩

/-- The regex test at docker.js:282: `/^\d\x7b1,6\x7d$/.test(port)`. -/
def validPort (p : String) : Bool :=
  decide (1 ≤ p.length) && decide (p.length ≤ 6) &&
    p.data.all (fun c => c.isDigit)

/-- Processing of one port entry (docker.js:281-293): skip entries
failing the regex; for a valid port overwrite the `port/tcp` and
`port/udp` binding keys with the singleton `[{ HostIp: ip, HostPort:
port }]` and add both exposed keys. -/
def processPort (ip p : String) (st : PortMaps) : PortMaps :=
  if validPort p then
    { bindings :=
        upsert (p ++ "/udp") [⟨ip, p⟩]
          (upsert (p ++ "/tcp") [⟨ip, p⟩] st.bindings),
      exposed := insertKey (p ++ "/udp") (insertKey (p ++ "/tcp") st.exposed) }
  else
    st

/-- Processing of one host IP's port list (docker.js:281-296). -/
def processPorts (ip : String) (l : List String) (st : PortMaps) : PortMaps :=
  l.foldl (fun s p => processPort ip p s) st

/-- Rebuild Phase 2 over `config.ports` (docker.js:279-299): iterate the
host IPs in object order; a value that is not an array (`none`) is
skipped (docker.js:280). -/
def buildPortMaps (cfg : List (String × Option (List String))) : PortMaps :=
  cfg.foldl
    (fun s e =>
      match e.2 with
      | none => s
      | some l => processPorts e.1 l s)
    emptyPortMaps

/-- The swap computation at docker.js:315-320 (`config.memory` and
`config.swap` are in MB). -/
def swapSpace (memory swap : Int) : Int :=
  if swap < 0 then -1
  else if swap > 0 ∧ memory > 0 then (memory + swap) * 1000000
  else 0

/-- The container object returned by `DockerController.createContainer`:
only its `id` is read. -/
structure CreatedContainer where
  id : String
deriving DecidableEq, Repr

/-- The object passed to `next` at docker.js:368-371. -/
structure RebuildResult where
  id : String
  image : String
deriving DecidableEq, Repr

/-- `rebuild(next)` end-to-end control flow (docker.js:254-374):
`Async.series` aborts on the first phase error and `next` receives only
that error; Phase 2 cannot fail; on success of all phases the old
container is removed and `next` receives the removal outcome together
with `\x7b id: data[2].id, image: config.image \x7d`. Returns (error
passed to `next`, result passed to `next`). -/
def rebuildStep (image : String) (imagePhase : Option JsError)
    (createRes : Except JsError CreatedContainer)
    (removeRes : Option JsError) : Option JsError × Option RebuildResult :=
  match imagePhase with
  | some e => (some e, none)
  | none =>
    match createRes with
    | .error e => (some e, none)
    | .ok c => (removeRes, some ⟨c.id, image⟩)

/-! Helper lemmas about the JS-object operations. -/

theorem lookupKey_upsert_self (k : String) (v : α) (l : List (String × α)) :
    lookupKey k (upsert k v l) = some v := by
  induction l with
  | nil => simp [upsert, lookupKey]
  | cons hd tl ih =>
    obtain ⟨k', v'⟩ := hd
    by_cases h : k' = k
    · simp [upsert, h, lookupKey]
    · simp [upsert, h, lookupKey, ih]

theorem lookupKey_upsert_ne (k k' : String) (v : α) (l : List (String × α))
    (h : k' ≠ k) : lookupKey k (upsert k' v l) = lookupKey k l := by
  induction l with
  | nil => simp [upsert, lookupKey, h]
  | cons hd tl ih =>
    obtain ⟨k'', v''⟩ := hd
    by_cases h2 : k'' = k'
    · subst h2
      simp [upsert, lookupKey, h]
    · by_cases h3 : k'' = k
      · subst h3
        simp [upsert, h2, lookupKey, Ne.symm h]
      · simp [upsert, h2, lookupKey, h3, ih]

theorem mem_insertKey_self (k : String) (l : List String) :
    k ∈ insertKey k l := by
  induction l with
  | nil => simp [insertKey]
  | cons hd tl ih =>
    by_cases h : hd = k
    · simp [insertKey, h]
    · simp [insertKey, h]
      tauto

theorem mem_insertKey_of_mem (a k : String) (l : List String) (h : a ∈ l) :
    a ∈ insertKey k l := by
  induction l with
  | nil => cases h
  | cons hd tl ih =>
    by_cases h2 : hd = k
    · simpa [insertKey, h2] using h
    · rcases List.mem_cons.mp h with h3 | h3
      · simp [insertKey, h2, h3]
      · simp only [insertKey, h2, if_false, List.mem_cons]
        exact Or.inr (ih h3)

theorem mem_upsert_keys (a k : String) (v : α) (l : List (String × α)) :
    a ∈ (upsert k v l).map Prod.fst ↔ a = k ∨ a ∈ l.map Prod.fst := by
  induction l with
  | nil => simp [upsert]
  | cons hd tl ih =>
    obtain ⟨k', v'⟩ := hd
    by_cases h : k' = k
    · subst h
      simp [upsert]
    · simp [upsert, h, ih]
      tauto

theorem upsert_keys_nodup (k : String) (v : α) (l : List (String × α))
    (h : (l.map Prod.fst).Nodup) : ((upsert k v l).map Prod.fst).Nodup := by
  induction l with
  | nil => simp [upsert]
  | cons hd tl ih =>
    obtain ⟨k', v'⟩ := hd
    simp only [List.map_cons, List.nodup_cons] at h
    by_cases hk : k' = k
    · subst hk
      simpa [upsert] using h
    · simp only [upsert, hk, if_false, List.map_cons, List.nodup_cons]
      refine ⟨?_, ih h.2⟩
      rw [mem_upsert_keys]
      push_neg
      exact ⟨hk, h.1⟩

/-! Injectivity of the string keys built by `Util.format` in Phase 2. -/

theorem key_ne_of_port_ne {q p : String} (s t : String)
    (hlen : s.data.length = t.data.length) (hne : q ≠ p) : q ++ s ≠ p ++ t := by
  intro h
  have hd := congrArg String.data h
  rw [String.data_append, String.data_append] at hd
  exact hne (String.ext (List.append_inj' hd hlen).1)

theorem tcp_key_ne_udp_key (p : String) : p ++ "/tcp" ≠ p ++ "/udp" := by
  intro h
  have hd := congrArg String.data h
  rw [String.data_append, String.data_append] at hd
  have h2 := List.append_inj hd rfl
  exact absurd (String.ext h2.2) (by decide : ("/tcp" : String) ≠ "/udp")

/-! Phase-2 iteration lemmas. -/

theorem processPort_preserves_lookup (ip q k : String) (st : PortMaps)
    (h1 : q ++ "/tcp" ≠ k) (h2 : q ++ "/udp" ≠ k) :
    lookupKey k (processPort ip q st).bindings = lookupKey k st.bindings := by
  unfold processPort
  cases hv : validPort q with
  | false => simp
  | true =>
    simp only [if_true]
    rw [lookupKey_upsert_ne k (q ++ "/udp") _ _ h2,
      lookupKey_upsert_ne k (q ++ "/tcp") _ _ h1]

theorem processPorts_preserves_lookup (ip : String) (l : List String)
    (k : String) (st : PortMaps)
    (h : ∀ q ∈ l, q ++ "/tcp" ≠ k ∧ q ++ "/udp" ≠ k) :
    lookupKey k (processPorts ip l st).bindings = lookupKey k st.bindings := by
  induction l generalizing st with
  | nil => rfl
  | cons q rest ih =>
    have hstep : processPorts ip (q :: rest) st
        = processPorts ip rest (processPort ip q st) := rfl
    rw [hstep, ih (processPort ip q st)
      (fun q' hq' => h q' (List.mem_cons_of_mem _ hq'))]
    exact processPort_preserves_lookup ip q k st
      (h q (List.mem_cons_self q rest)).1 (h q (List.mem_cons_self q rest)).2

theorem processPort_lookup_self (ip p : String) (st : PortMaps)
    (hv : validPort p = true) :
    lookupKey (p ++ "/tcp") (processPort ip p st).bindings = some [⟨ip, p⟩] ∧
    lookupKey (p ++ "/udp") (processPort ip p st).bindings = some [⟨ip, p⟩] := by
  unfold processPort
  rw [hv]
  simp only [if_true]
  constructor
  · rw [lookupKey_upsert_ne _ _ _ _ (Ne.symm (tcp_key_ne_udp_key p)),
      lookupKey_upsert_self]
  · rw [lookupKey_upsert_self]

theorem processPorts_lookup_of_mem (ip p : String) (hv : validPort p = true) :
    ∀ (l : List String) (st : PortMaps), p ∈ l →
      lookupKey (p ++ "/tcp") (processPorts ip l st).bindings = some [⟨ip, p⟩] ∧
      lookupKey (p ++ "/udp") (processPorts ip l st).bindings = some [⟨ip, p⟩] := by
  intro l
  induction l with
  | nil => intro st hp; cases hp
  | cons q rest ih =>
    intro st hp
    by_cases hmem : p ∈ rest
    · exact ih (processPort ip q st) hmem
    · have hpq : p = q := by
        rcases List.mem_cons.mp hp with h | h
        · exact h
        · exact absurd h hmem
      subst hpq
      have hstep : processPorts ip (p :: rest) st
          = processPorts ip rest (processPort ip p st) := rfl
      have hkeys : ∀ k, (∀ q' ∈ rest, q' ++ "/tcp" ≠ k ∧ q' ++ "/udp" ≠ k) →
          lookupKey k (processPorts ip rest (processPort ip p st)).bindings
            = lookupKey k (processPort ip p st).bindings :=
        fun k hk => processPorts_preserves_lookup ip rest k _ hk
      constructor
      · rw [hstep, hkeys (p ++ "/tcp") ?side]
        · exact (processPort_lookup_self ip p st hv).1
        case side =>
          intro q' hq'
          have hne : q' ≠ p := fun h => hmem (h ▸ hq')
          exact ⟨key_ne_of_port_ne "/tcp" "/tcp" rfl hne,
            key_ne_of_port_ne "/udp" "/tcp" rfl hne⟩
      · rw [hstep, hkeys (p ++ "/udp") ?side2]
        · exact (processPort_lookup_self ip p st hv).2
        case side2 =>
          intro q' hq'
          have hne : q' ≠ p := fun h => hmem (h ▸ hq')
          exact ⟨key_ne_of_port_ne "/tcp" "/udp" rfl hne,
            key_ne_of_port_ne "/udp" "/udp" rfl hne⟩

theorem processPort_keys_nodup (ip p : String) (st : PortMaps)
    (h : (st.bindings.map Prod.fst).Nodup) :
    ((processPort ip p st).bindings.map Prod.fst).Nodup := by
  unfold processPort
  cases hv : validPort p with
  | false => simpa using h
  | true =>
    simp only [if_true]
    exact upsert_keys_nodup _ _ _ (upsert_keys_nodup _ _ _ h)

theorem processPorts_keys_nodup (ip : String) (l : List String) (st : PortMaps)
    (h : (st.bindings.map Prod.fst).Nodup) :
    ((processPorts ip l st).bindings.map Prod.fst).Nodup := by
  induction l generalizing st with
  | nil => exact h
  | cons q rest ih =>
    exact ih (processPort ip q st) (processPort_keys_nodup ip q st h)

theorem buildPortMaps_keys_nodup (cfg : List (String × Option (List String))) :
    ((buildPortMaps cfg).bindings.map Prod.fst).Nodup := by
  have haux : ∀ (c : List (String × Option (List String))) (st : PortMaps),
      (st.bindings.map Prod.fst).Nodup →
      ((c.foldl
        (fun s e =>
          match e.2 with
          | none => s
          | some l => processPorts e.1 l s) st).bindings.map Prod.fst).Nodup := by
    intro c
    induction c with
    | nil => intro st h; exact h
    | cons e rest ih =>
      intro st h
      cases he : e.2 with
      | none =>
        simp only [List.foldl_cons, he]
        exact ih st h
      | some l =>
        simp only [List.foldl_cons, he]
        exact ih _ (processPorts_keys_nodup e.1 l st h)
  exact haux cfg emptyPortMaps (by simp [emptyPortMaps])

/-! Claim theorems. -/

/-- C1: in a rebuild run where image assurance and container creation
succeed (binding construction cannot fail) but removal of the previous
container fails, `next` still receives a result carrying the newly
created container's id and the configured image, with the removal error
reported alongside it — no rollback of the new container. -/
theorem rebuild_remove_failure_reports_error_and_result
    (image : String) (c : CreatedContainer) (e : JsError) :
    rebuildStep image none (.ok c) (some e) = (some e, some ⟨c.id, image⟩) := rfl

/-- C2 counterexample: the attach stream's `end` handler does not invoke
`stats()` (and leaves the telemetry stream reference untouched), so the
claim that stream end triggers `stats()` to (re)start telemetry fails at
this concrete state. -/
theorem attach_end_handler_does_not_call_stats :
    Effect.callStats ∉ (attachEndHandler ⟨some ⟨true⟩, some ⟨0⟩, none⟩).2 ∧
    (attachEndHandler ⟨some ⟨true⟩, some ⟨0⟩, none⟩).1.procStream = some ⟨0⟩ := by
  constructor
  · decide
  · rfl

/-- C2 (amended): when the attached stream ends, the handler clears the
stored session reference and notifies the owning server that the stream
closed, and does nothing else; `stats()` is instead invoked once during
successful attach setup. -/
theorem attach_end_clears_session_and_stats_runs_at_setup
    (st st' : DockerState) (s : AttachStream) (t : TelemStream)
    (h : st'.stream = none) :
    attachEndHandler st = ({ st with stream := none }, [Effect.notifyStreamClosed]) ∧
    attachStep st' (.ok s) (.ok t) =
      ({ st' with stream := some s, procStream := some t }, none,
        [Effect.callStats]) := by
  refine ⟨rfl, ?_⟩
  simp [attachStep, attachBusy, isStreamOpt, h]

theorem attach_end_clears_session_and_stats_runs_at_setup_witness :
    attachEndHandler ⟨some ⟨true⟩, none, none⟩ =
      (⟨none, none, none⟩, [Effect.notifyStreamClosed]) ∧
    attachStep ⟨none, none, none⟩ (.ok ⟨true⟩) (.ok ⟨0⟩) =
      (⟨some ⟨true⟩, some ⟨0⟩, none⟩, none, [Effect.callStats]) :=
  attach_end_clears_session_and_stats_runs_at_setup
    ⟨some ⟨true⟩, none, none⟩ ⟨none, none, none⟩ ⟨true⟩ ⟨0⟩ rfl

/-- C3: while an attach stream reference is present, a second `attach()`
returns the session-busy error without opening a new stream and with no
side effects, and `exec()` returns the same error without reaching the
runtime; while no attach stream reference is present, `exec()` proceeds,
leaves the controller state untouched, and hence a second `exec()` also
proceeds (exec does not conflict with exec). -/
theorem session_exclusivity (st : DockerState) (s : AttachStream)
    (ar : Except JsError AttachStream) (tr : Except JsError TelemStream)
    (er er' : Except JsError Unit) :
    (st.stream = some s →
      attachStep st ar tr = (st, some sessionBusyError, []) ∧
      execStep st er = (st, some sessionBusyError, false)) ∧
    (st.stream = none →
      (execStep st er).2.2 = true ∧ (execStep st er).1 = st ∧
      (execStep ((execStep st er).1) er').2.2 = true) := by
  constructor
  · intro h
    constructor
    · simp [attachStep, attachBusy, h, isStreamOpt]
    · simp [execStep, execBusy, h, isStreamOpt]
  · intro h
    have hb : execBusy st = false := by simp [execBusy, h, isStreamOpt]
    cases er with
    | error e =>
      refine ⟨by simp [execStep, hb], by simp [execStep, hb], ?_⟩
      cases er' <;> simp [execStep, hb]
    | ok u =>
      refine ⟨by simp [execStep, hb], by simp [execStep, hb], ?_⟩
      cases er' <;> simp [execStep, hb]

theorem session_exclusivity_witness :
    (attachStep ⟨some ⟨true⟩, none, none⟩ (.ok ⟨true⟩) (.ok ⟨0⟩) =
        (⟨some ⟨true⟩, none, none⟩, some sessionBusyError, []) ∧
      execStep ⟨some ⟨true⟩, none, none⟩ (.ok ()) =
        (⟨some ⟨true⟩, none, none⟩, some sessionBusyError, false)) ∧
    ((execStep ⟨none, none, none⟩ (.ok ())).2.2 = true ∧
      (execStep ⟨none, none, none⟩ (.ok ())).1 = ⟨none, none, none⟩ ∧
      (execStep ((execStep ⟨none, none, none⟩ (.ok ())).1) (.ok ())).2.2 = true) :=
  ⟨(session_exclusivity ⟨some ⟨true⟩, none, none⟩ ⟨true⟩ (.ok ⟨true⟩) (.ok ⟨0⟩)
      (.ok ()) (.ok ())).1 rfl,
    (session_exclusivity ⟨none, none, none⟩ ⟨true⟩ (.ok ⟨true⟩) (.ok ⟨0⟩)
      (.ok ()) (.ok ())).2 rfl⟩

/-- C4: `start()` converts the runtime's "already started" failure into
success with status ON; a fresh successful start reports success with
status STARTING; any other runtime error is surfaced verbatim with the
status unchanged. -/
theorem start_idempotence (status : ServerStatus) (e e' : JsError)
    (h : msgContains e.message alreadyStartedNeedle = true)
    (h' : msgContains e'.message alreadyStartedNeedle = false) :
    startStep status (some e) = (none, ServerStatus.ON) ∧
    startStep status none = (none, ServerStatus.STARTING) ∧
    startStep status (some e') = (some e', status) := by
  refine ⟨?_, rfl, ?_⟩ <;> simp [startStep, h, h']

theorem start_idempotence_witness :
    startStep ServerStatus.OFF (some ⟨alreadyStartedNeedle⟩) =
      (none, ServerStatus.ON) ∧
    startStep ServerStatus.OFF none = (none, ServerStatus.STARTING) ∧
    startStep ServerStatus.OFF (some ⟨"no such container"⟩) =
      (some ⟨"no such container"⟩, ServerStatus.OFF) :=
  start_idempotence ServerStatus.OFF ⟨alreadyStartedNeedle⟩
    ⟨"no such container"⟩ (by decide) (by decide)

/-- C5: at construction-time reconciliation, an inspect report with
`State.Running = true` sets the status to ON and initiates `attach`,
reporting the attach outcome; a report with `State.Running = false`
leaves the status unchanged, initiates no attach, and reports success;
an inspect failure is propagated with the status unchanged. -/
theorem reattach_reconciliation (status : ServerStatus)
    (dOn dOff : InspectData) (e : JsError) (attachErr : Option JsError)
    (hOn : dOn.running = some true) (hOff : dOff.running = some false) :
    reattachStep status (.ok dOn) attachErr = (attachErr, ServerStatus.ON, true) ∧
    reattachStep status (.ok dOff) attachErr = (none, status, false) ∧
    reattachStep status (.error e) attachErr = (some e, status, false) := by
  refine ⟨?_, ?_, rfl⟩ <;> simp [reattachStep, runningCheck, hOn, hOff]

theorem reattach_reconciliation_witness :
    reattachStep ServerStatus.OFF (.ok ⟨some true⟩) none =
      (none, ServerStatus.ON, true) ∧
    reattachStep ServerStatus.OFF (.ok ⟨some false⟩) none =
      (none, ServerStatus.OFF, false) ∧
    reattachStep ServerStatus.OFF (.error ⟨"inspect failed"⟩) none =
      (some ⟨"inspect failed"⟩, ServerStatus.OFF, false) :=
  reattach_reconciliation ServerStatus.OFF ⟨some true⟩ ⟨some false⟩
    ⟨"inspect failed"⟩ none rfl rfl

/-- C6: `write(data)` with no writable attach stream fails with the
no-writable-stream error and writes nothing; with a writable attach
stream open it succeeds and the bytes written are exactly `data`
followed by a single newline. -/
theorem write_requires_writable_stream (st stw : DockerState)
    (command : String) (h : isWritableOpt st.stream = false)
    (hw : isWritableOpt stw.stream = true) :
    writeStep st command = (some noWritableStreamError, none) ∧
    writeStep stw command = (none, some (command ++ "\n")) := by
  constructor <;> simp [writeStep, h, hw]

theorem write_requires_writable_stream_witness :
    writeStep ⟨none, none, none⟩ "say hi" = (some noWritableStreamError, none) ∧
    writeStep ⟨some ⟨true⟩, none, none⟩ "say hi" = (none, some ("say hi" ++ "\n")) ∧
    "say hi" ++ "\n" = "say hi\n" :=
  ⟨(write_requires_writable_stream ⟨none, none, none⟩ ⟨some ⟨true⟩, none, none⟩
      "say hi" rfl rfl).1,
    (write_requires_writable_stream ⟨none, none, none⟩ ⟨some ⟨true⟩, none, none⟩
      "say hi" rfl rfl).2, rfl⟩

/-- C8: the swap bytes in the creation descriptor are -1 when swap < 0
(regardless of memory); (memory + swap) × 1,000,000 when swap > 0 and
memory > 0; and 0 otherwise. -/
theorem swap_computation (memory swap : Int) :
    (swap < 0 → swapSpace memory swap = -1) ∧
    (swap > 0 → memory > 0 → swapSpace memory swap = (memory + swap) * 1000000) ∧
    (¬ swap < 0 → ¬ (swap > 0 ∧ memory > 0) → swapSpace memory swap = 0) := by
  refine ⟨?_, ?_, ?_⟩
  · intro h
    unfold swapSpace
    rw [if_pos h]
  · intro h1 h2
    unfold swapSpace
    rw [if_neg (by omega : ¬ swap < 0), if_pos ⟨h1, h2⟩]
  · intro h1 h2
    unfold swapSpace
    rw [if_neg h1, if_neg h2]

theorem swap_computation_witness :
    swapSpace 512 (-1) = -1 ∧
    swapSpace 512 256 = 768000000 ∧
    swapSpace 512 0 = 0 := by
  refine ⟨(swap_computation 512 (-1)).1 (by decide), ?_,
    (swap_computation 512 0).2.2 (by decide) (by simp)⟩
  rw [(swap_computation 512 256).2.1 (by decide) (by decide)]
  norm_num

/-- C9: a stats data event whose payload fails to decode (including each
half of a payload split across two consecutive events) changes nothing:
the handler is total (the decode exception is swallowed), no error is
produced, and the held snapshot is unchanged; a data event never clears
the telemetry stream reference or a held snapshot; both are cleared by
the stream-end handler. -/
theorem telemetry_resilience (parse : String → Option Metrics)
    (d1 d2 d3 : String) (st : DockerState) (m m' : Metrics)
    (h1 : parse d1 = none) (h2 : parse d2 = none)
    (h3 : parse (d1 ++ d2) = some m') (hm : st.procData = some m) :
    statsDataHandler parse d1 st = st ∧
    statsDataHandler parse d2 (statsDataHandler parse d1 st) = st ∧
    (statsDataHandler parse d3 st).procStream = st.procStream ∧
    (statsDataHandler parse d3 st).procData.isSome = true ∧
    statsEndHandler st = { st with procStream := none, procData := none } := by
  refine ⟨?_, ?_, ?_, ?_, rfl⟩
  · simp [statsDataHandler, h1]
  · simp [statsDataHandler, h1, h2]
  · unfold statsDataHandler
    cases parse d3 <;> simp
  · unfold statsDataHandler
    cases parse d3 <;> simp [hm]

theorem telemetry_resilience_witness :
    statsDataHandler
      (fun s => if s = "cpu 12 mem 34" then some ⟨s⟩ else none) "cpu 12"
      ⟨none, some ⟨7⟩, some ⟨"old snapshot"⟩⟩ =
      ⟨none, some ⟨7⟩, some ⟨"old snapshot"⟩⟩ ∧
    statsDataHandler
      (fun s => if s = "cpu 12 mem 34" then some ⟨s⟩ else none) " mem 34"
      (statsDataHandler
        (fun s => if s = "cpu 12 mem 34" then some ⟨s⟩ else none) "cpu 12"
        ⟨none, some ⟨7⟩, some ⟨"old snapshot"⟩⟩) =
      ⟨none, some ⟨7⟩, some ⟨"old snapshot"⟩⟩ ∧
    (statsDataHandler
      (fun s => if s = "cpu 12 mem 34" then some ⟨s⟩ else none) "junk"
      ⟨none, some ⟨7⟩, some ⟨"old snapshot"⟩⟩).procStream = some ⟨7⟩ ∧
    (statsDataHandler
      (fun s => if s = "cpu 12 mem 34" then some ⟨s⟩ else none) "junk"
      ⟨none, some ⟨7⟩, some ⟨"old snapshot"⟩⟩).procData.isSome = true ∧
    statsEndHandler ⟨none, some ⟨7⟩, some ⟨"old snapshot"⟩⟩ =
      ⟨none, none, none⟩ :=
  telemetry_resilience
    (fun s => if s = "cpu 12 mem 34" then some ⟨s⟩ else none)
    "cpu 12" " mem 34" "junk" ⟨none, some ⟨7⟩, some ⟨"old snapshot"⟩⟩
    ⟨"old snapshot"⟩ ⟨"cpu 12 mem 34"⟩ (by decide) (by decide) (by decide) rfl

/-- C7: a port entry matching the 1–6 digit regex produces exactly one
TCP and one UDP host binding (each the singleton with that host IP and
port) plus the corresponding tcp and udp exposed-port keys; a
non-matching entry is skipped, leaving both maps exactly as they were
and producing no error (the step is total). -/
theorem port_entry_processing (ip p : String) (st : PortMaps) :
    (validPort p = true →
      lookupKey (p ++ "/tcp") (processPort ip p st).bindings = some [⟨ip, p⟩] ∧
      lookupKey (p ++ "/udp") (processPort ip p st).bindings = some [⟨ip, p⟩] ∧
      (p ++ "/tcp") ∈ (processPort ip p st).exposed ∧
      (p ++ "/udp") ∈ (processPort ip p st).exposed) ∧
    (validPort p = false → processPort ip p st = st) := by
  constructor
  · intro hv
    refine ⟨(processPort_lookup_self ip p st hv).1,
      (processPort_lookup_self ip p st hv).2, ?_, ?_⟩
    · unfold processPort
      rw [hv]
      simp only [if_true]
      exact mem_insertKey_of_mem _ _ _ (mem_insertKey_self _ _)
    · unfold processPort
      rw [hv]
      simp only [if_true]
      exact mem_insertKey_self _ _
  · intro hv
    unfold processPort
    rw [hv]
    simp

theorem port_entry_processing_witness :
    (lookupKey ("70000" ++ "/tcp")
        (processPort "127.0.0.1" "70000" emptyPortMaps).bindings =
      some [⟨"127.0.0.1", "70000"⟩] ∧
      lookupKey ("70000" ++ "/udp")
        (processPort "127.0.0.1" "70000" emptyPortMaps).bindings =
      some [⟨"127.0.0.1", "70000"⟩] ∧
      ("70000" ++ "/tcp") ∈ (processPort "127.0.0.1" "70000" emptyPortMaps).exposed ∧
      ("70000" ++ "/udp") ∈ (processPort "127.0.0.1" "70000" emptyPortMaps).exposed) ∧
    processPort "127.0.0.1" "abc" emptyPortMaps = emptyPortMaps ∧
    processPort "127.0.0.1" "1234567" emptyPortMaps = emptyPortMaps :=
  ⟨(port_entry_processing "127.0.0.1" "70000" emptyPortMaps).1 (by decide),
    (port_entry_processing "127.0.0.1" "abc" emptyPortMaps).2 (by decide),
    (port_entry_processing "127.0.0.1" "1234567" emptyPortMaps).2 (by decide)⟩

/-- C10: the binding map is keyed by port and protocol only, not by host
IP: when two distinct host IPs' port lists both contain the same valid
port token, the final map holds exactly one TCP and one UDP entry for
that port (the key set has no duplicates), and the surviving binding
carries the host IP processed last. -/
theorem bindings_keyed_by_port_last_ip_wins
    (ip1 ip2 p : String) (l1 l2 : List String)
    (hip : ip1 ≠ ip2) (hv : validPort p = true) (h1 : p ∈ l1) (h2 : p ∈ l2) :
    lookupKey (p ++ "/tcp")
        (buildPortMaps [(ip1, some l1), (ip2, some l2)]).bindings =
      some [⟨ip2, p⟩] ∧
    lookupKey (p ++ "/udp")
        (buildPortMaps [(ip1, some l1), (ip2, some l2)]).bindings =
      some [⟨ip2, p⟩] ∧
    ((buildPortMaps [(ip1, some l1), (ip2, some l2)]).bindings.map
      Prod.fst).Nodup := by
  have hb : buildPortMaps [(ip1, some l1), (ip2, some l2)]
      = processPorts ip2 l2 (processPorts ip1 l1 emptyPortMaps) := rfl
  refine ⟨?_, ?_, buildPortMaps_keys_nodup _⟩
  · rw [hb]
    exact (processPorts_lookup_of_mem ip2 p hv l2 _ h2).1
  · rw [hb]
    exact (processPorts_lookup_of_mem ip2 p hv l2 _ h2).2

theorem bindings_keyed_by_port_last_ip_wins_witness :
    lookupKey ("25565" ++ "/tcp")
        (buildPortMaps [("10.0.0.1", some ["25565"]),
          ("10.0.0.2", some ["25565"])]).bindings =
      some [⟨"10.0.0.2", "25565"⟩] ∧
    lookupKey ("25565" ++ "/udp")
        (buildPortMaps [("10.0.0.1", some ["25565"]),
          ("10.0.0.2", some ["25565"])]).bindings =
      some [⟨"10.0.0.2", "25565"⟩] ∧
    ((buildPortMaps [("10.0.0.1", some ["25565"]),
      ("10.0.0.2", some ["25565"])]).bindings.map Prod.fst).Nodup :=
  bindings_keyed_by_port_last_ip_wins "10.0.0.1" "10.0.0.2" "25565"
    ["25565"] ["25565"] (by decide) (by decide) (by decide) (by decide)

end Daemon
